import Mathlib

/-!
Verification development for an MQTT telemetry pair:
a sensor publisher (emitter, sensor_publisher.py) and a screen
subscriber (observer, screen_subscriber.py).  The Python sources are
shallowly embedded: JSON payloads become an inductive value type,
Python dicts become association lists with first-match lookup and
in-place update, and each handler becomes a pure state-transition
function mirroring the source line by line.  Randomness (the simulated
readings) and wall-clock timestamps enter as explicit parameters.
Every payload in this repository nests at most one object level (the
state envelope published on sensors/control/sub carries the current
reading dict in its data field), so the JSON model has atomic values
and a single object layer.
-/

namespace MqttProject

/-- Atomic JSON values (numbers are rationals; the sources never
exercise float rounding). -/
inductive JAtom where
  | anum (q : Rat)
  | astr (s : String)
  | abool (b : Bool)
  | anull
deriving DecidableEq

/-- JSON values as delivered by the wire codec: atoms plus one level of
object nesting, which covers every payload these two programs build. -/
inductive JVal where
  | jnum (q : Rat)
  | jstr (s : String)
  | jbool (b : Bool)
  | jnull
  | jobj (fields : List (String × JAtom))
deriving DecidableEq

/-- Embedding of an atom into the value type (the same Python object
seen at a different nesting depth). -/
def JAtom.toJVal : JAtom → JVal
  | .anum q => .jnum q
  | .astr s => .jstr s
  | .abool b => .jbool b
  | .anull => .jnull

/-- A decoded JSON object: an ordered field list, as json.loads yields. -/
abbrev JsonObj := List (String × JVal)

/-- An inner (one-level-nested) object: fields hold atoms. -/
abbrev JInner := List (String × JAtom)

/-- View an inner object as a top-level one. -/
def innerObj (l : JInner) : JsonObj := l.map (fun p => (p.1, p.2.toJVal))

/-- Dictionary read, first match wins (Python dict has unique keys). -/
def dget {κ α : Type} [DecidableEq κ] : List (κ × α) → κ → Option α
  | [], _ => none
  | (k', v') :: rest, k => if k' = k then some v' else dget rest k

/-- Dictionary write: replace in place when the key exists, else append
(Python dict assignment keeps insertion order). -/
def dset {κ α : Type} [DecidableEq κ] : List (κ × α) → κ → α → List (κ × α)
  | [], k, v => [(k, v)]
  | (k', v') :: rest, k, v =>
      if k' = k then (k', v) :: rest else (k', v') :: dset rest k v

/-- Python dict.get(key) — None when absent. -/
def jget (o : JsonObj) (k : String) : Option JVal := dget o k

/-- Python dict.get(key, default) on a top-level object. -/
def jgetD (o : JsonObj) (k : String) (d : JVal) : JVal :=
  match dget o k with
  | some v => v
  | none => d

/-- Python dict.get(key, default) on an inner object. -/
def igetD (o : JInner) (k : String) (d : JAtom) : JAtom :=
  match dget o k with
  | some v => v
  | none => d

/-! ## Emitter (sensor_publisher.py, class TemperatureHumiditySensor) -/

/-- A message handed to client.publish: topic plus the decoded form of
the json.dumps payload. -/
structure Pub where
  topic : String
  payload : JsonObj
deriving DecidableEq

/-- Emitter-side mutable state (the fields of TemperatureHumiditySensor
that the protocol logic reads or writes; web/socketio emits are pure
output and are not state). -/
structure EmitterState where
  client_id : String
  is_connected : Bool
  is_running : Bool
  sensor_enabled : Bool
  current_data : JInner
deriving DecidableEq

/-- Topic constants of the emitter (sensor_publisher.py lines 43-46). -/
def topic_combined : String := "sensors/temp_humidity"

def topic_control : String := "sensors/control"

namespace TemperatureHumiditySensor

/-- sensor_publisher.py lines 146-169 (on_message).  The decode result
of json.loads stands in for the raw bytes: none covers an unparseable
payload or a payload that is not an object (payload.get then raises,
and the surrounding try/except logs and drops either way).  Output:
new state and the list of MQTT publishes made by the handler. -/
def on_message (s : EmitterState) (topic : String)
    (decoded : Option JsonObj) : EmitterState × List Pub :=
  if topic = topic_control then
    match decoded with
    | none => (s, [])
    | some payload =>
        let command := jgetD payload "command" (JVal.jstr "")
        if command = JVal.jstr "enable" then
          ({ s with sensor_enabled := true }, [])
        else if command = JVal.jstr "disable" then
          ({ s with sensor_enabled := false }, [])
        else (s, [])
  else (s, [])

/-- sensor_publisher.py lines 84-103 (handle_toggle_sensor): flip the
enabled flag and publish the current state envelope on the
sensors/control/sub topic. -/
def handle_toggle_sensor (s : EmitterState) : EmitterState × List Pub :=
  let s1 : EmitterState := { s with sensor_enabled := !s.sensor_enabled }
  (s1,
    [⟨topic_control ++ "/sub",
      [("connected", JVal.jbool s1.is_connected),
       ("running", JVal.jbool s1.is_running),
       ("enabled", JVal.jbool s1.sensor_enabled),
       ("data", JVal.jobj s1.current_data)]⟩])

/-- sensor_publisher.py lines 171-192 (generate_sensor_data).  The
random draw and datetime.now() enter as parameters; returns the new
state and the generated reading (None when the sensor is disabled). -/
def generate_sensor_data (s : EmitterState) (temperature humidity : Rat)
    (timestamp : String) : EmitterState × Option JInner :=
  if !s.sensor_enabled then (s, none)
  else
    let data : JInner :=
      [("temperature", .anum temperature),
       ("humidity", .anum humidity),
       ("timestamp", .astr timestamp),
       ("sensor_id", .astr s.client_id),
       ("unit_temp", .astr "°C"),
       ("unit_humidity", .astr "%"),
       ("status", .astr (if s.is_connected then "online" else "offline"))]
    ({ s with current_data := data }, some data)

/-- sensor_publisher.py lines 194-229 (publish_data): no-op returning
False when disconnected or when the data is falsy, else one publish of
the combined reading. -/
def publish_data (s : EmitterState) (data : Option JInner) :
    Bool × List Pub :=
  match data with
  | none => (false, [])
  | some d =>
      if !s.is_connected then (false, [])
      else (true, [⟨topic_combined, innerObj d⟩])

/-- One iteration of the run_sensor loop (sensor_publisher.py lines
257-274): generate, and publish only when a reading was generated.
Result: new state, the generated reading, and the publishes. -/
def sensor_tick (s : EmitterState) (temperature humidity : Rat)
    (timestamp : String) : EmitterState × Option JInner × List Pub :=
  let (s1, sensor_data) := generate_sensor_data s temperature humidity timestamp
  match sensor_data with
  | none => (s1, none, [])
  | some d => (s1, some d, (publish_data s1 (some d)).2)

end TemperatureHumiditySensor

/-! ## Observer (screen_subscriber.py, class SensorDataDisplay)

The sensor_data dictionary and the surrounding object state are
flattened into one record; values stored under sensor_states keep the
raw JSON value the source stores (the handlers write booleans, the ack
handler writes whatever the enabled field carried). -/

/-- Observer-side mutable state.  sensor_states keys are the raw values
Python would use as dict keys (strings in every real payload). -/
structure DisplayState where
  client_id : String
  is_connected : Bool
  temperature : JsonObj
  humidity : JsonObj
  combined : Option JsonObj
  last_update : Option String
  sensor_states : List (JVal × JVal)
  message_count : Nat
  connected_devices : List JVal
deriving DecidableEq

namespace SensorDataDisplay

/-- screen_subscriber.py lines 196-203 (handle_temperature_data).  The
source indexes data with square brackets, so a missing field raises
KeyError before the assignment: the Bool output records whether the
handler raised (True) for the caller's try/except. -/
def handle_temperature_data (s : DisplayState) (data : JsonObj) :
    DisplayState × Bool :=
  match jget data "value", jget data "unit", jget data "timestamp" with
  | some v, some u, some ts =>
      ({ s with temperature :=
          [("value", v), ("unit", u), ("timestamp", ts),
           ("sensor_id", jgetD data "sensor_id" (.jstr "unknown"))] }, false)
  | _, _, _ => (s, true)

/-- screen_subscriber.py lines 205-212 (handle_humidity_data). -/
def handle_humidity_data (s : DisplayState) (data : JsonObj) :
    DisplayState × Bool :=
  match jget data "value", jget data "unit", jget data "timestamp" with
  | some v, some u, some ts =>
      ({ s with humidity :=
          [("value", v), ("unit", u), ("timestamp", ts),
           ("sensor_id", jgetD data "sensor_id" (.jstr "unknown"))] }, false)
  | _, _, _ => (s, true)

/-- screen_subscriber.py lines 214-229 (handle_combined_data): store
the whole reading in the single combined slot, copy temperature and
humidity values into the inner dicts (square-bracket access, so a
missing field raises after the slot was already overwritten), then
register a first-seen sensor_id with enabled=True. -/
def handle_combined_data (s : DisplayState) (data : JsonObj) :
    DisplayState × Bool :=
  let s0 : DisplayState := { s with combined := some data }
  match jget data "temperature" with
  | none => (s0, true)
  | some t =>
      let s1 : DisplayState :=
        { s0 with temperature := dset s0.temperature "value" t }
      match jget data "humidity" with
      | none => (s1, true)
      | some h =>
          let s2 : DisplayState :=
            { s1 with humidity := dset s1.humidity "value" h }
          let sensor_id := jgetD data "sensor_id" (.jstr "unknown")
          if sensor_id ∈ s2.connected_devices then (s2, false)
          else
            let s3 : DisplayState :=
              { s2 with connected_devices := s2.connected_devices ++ [sensor_id] }
            if (dget s3.sensor_states sensor_id).isSome then (s3, false)
            else
              ({ s3 with sensor_states := s3.sensor_states ++ [(sensor_id, .jbool true)] },
               false)

/-- screen_subscriber.py lines 231-238 (handle_control_data): read the
enabled flag (default False) and the sensor_id nested under data
(default the string all), then set that entry of sensor_states.  When
the data field is not an object, .get raises AttributeError (Bool
output True) and the state is unchanged. -/
def handle_control_data (s : DisplayState) (data : JsonObj) :
    DisplayState × Bool :=
  let enabled := jgetD data "enabled" (.jbool false)
  match jgetD data "data" (.jobj []) with
  | .jobj inner =>
      let device_id := (igetD inner "sensor_id" (.astr "all")).toJVal
      ({ s with sensor_states := dset s.sensor_states device_id enabled }, false)
  | _ => (s, true)

/-- screen_subscriber.py lines 156-194 (on_message).  none stands for a
payload whose utf-8 decode or json.loads failed: both exceptions are
caught before any state was touched.  On success the message counter
is bumped, the topic dispatched, and last_update stamped unless the
handler raised (the except clause skips the remaining statements). -/
def on_message (s : DisplayState) (topic : String)
    (decoded : Option JsonObj) (now : String) : DisplayState :=
  match decoded with
  | none => s
  | some data =>
      let s1 : DisplayState := { s with message_count := s.message_count + 1 }
      let r :=
        if topic = "sensors/temperature" then handle_temperature_data s1 data
        else if topic = "sensors/humidity" then handle_humidity_data s1 data
        else if topic = "sensors/temp_humidity" then handle_combined_data s1 data
        else if topic = "sensors/control/sub" then handle_control_data s1 data
        else (s1, false)
      if r.2 then r.1 else { r.1 with last_update := some now }

/-- screen_subscriber.py lines 240-259 (send_control_command): no
publish when disconnected, else one control envelope. -/
def send_control_command (s : DisplayState) (command device_id : JVal)
    (now : String) : List Pub :=
  if !s.is_connected then []
  else
    [⟨topic_control,
      [("command", command), ("device_id", device_id),
       ("timestamp", .jstr now), ("sender", .jstr s.client_id)]⟩]

/-- screen_subscriber.py lines 95-119 (handle_control_device, the
socketio control_device handler): publish the command, then apply it
optimistically to the local sensor_states — a specific target is set
directly, target all is expanded over connected_devices as known at
this moment. -/
def handle_control_device (s : DisplayState) (webdata : JsonObj)
    (now : String) : DisplayState × List Pub :=
  let command := jgetD webdata "command" (.jstr "")
  let device_id := jgetD webdata "device_id" (.jstr "all")
  if command = JVal.jstr "enable" ∨ command = JVal.jstr "disable" then
    let pubs := send_control_command s command device_id now
    if device_id ≠ JVal.jstr "all" then
      let states := dset s.sensor_states device_id
        (.jbool (decide (command = JVal.jstr "enable")))
      ({ s with sensor_states := states }, pubs)
    else if command = JVal.jstr "enable" then
      let states := s.connected_devices.foldl
        (fun acc d => dset acc d (.jbool true)) s.sensor_states
      ({ s with sensor_states := states }, pubs)
    else
      let states := s.connected_devices.foldl
        (fun acc d => dset acc d (.jbool false)) s.sensor_states
      ({ s with sensor_states := states }, pubs)
  else (s, [])

/-- screen_subscriber.py lines 285-316 (evaluate_conditions). -/
structure EvalResult where
  conditions : List String
  alerts : List String
  overall_status : String
deriving DecidableEq

/-- screen_subscriber.py lines 285-316 (evaluate_conditions): the two
range ladders append a condition and an alert each, and the overall
status is danger when a danger alert is present, else warning when a
warning alert is present, else success. -/
def evaluate_conditions (temperature humidity : Rat) : EvalResult :=
  let tempPart : List String × List String :=
    if temperature < 18 then (["🥶 Quá lạnh"], ["warning"])
    else if temperature > 32 then (["🥵 Quá nóng"], ["danger"])
    else if 20 ≤ temperature ∧ temperature ≤ 26 then
      (["😊 Nhiệt độ thoải mái"], ["success"])
    else ([], [])
  let humPart : List String × List String :=
    if humidity < 40 then (["🏜️ Quá khô"], ["warning"])
    else if humidity > 70 then (["🌊 Quá ẩm"], ["warning"])
    else if 50 ≤ humidity ∧ humidity ≤ 60 then
      (["😊 Độ ẩm thoải mái"], ["success"])
    else ([], [])
  let conditions := tempPart.1 ++ humPart.1
  let alerts := tempPart.2 ++ humPart.2
  { conditions := conditions
    alerts := alerts
    overall_status :=
      if "danger" ∈ alerts then "danger"
      else if "warning" ∈ alerts then "warning"
      else "success" }

end SensorDataDisplay

/-! ## Observer event traces (for interleaving claims) -/

/-- One inbound stimulus of the observer process: either the web
control_device event or a bus message (topic plus decode result). -/
inductive ObsEvent where
  | web (webdata : JsonObj) (now : String)
  | bus (topic : String) (decoded : Option JsonObj) (now : String)

/-- Apply one observer event to the state (publishes discarded). -/
def obs_step (s : DisplayState) (e : ObsEvent) : DisplayState :=
  match e with
  | .web d now => (SensorDataDisplay.handle_control_device s d now).1
  | .bus t d now => SensorDataDisplay.on_message s t d now

/-- Run a list of observer events left to right. -/
def obs_run (s : DisplayState) (evs : List ObsEvent) : DisplayState :=
  evs.foldl obs_step s

/-- The enabled value carried by an event when it is an acknowledgement
on sensors/control/sub addressing device d, per the extraction
handle_control_data performs. -/
def ackValueFor (e : ObsEvent) (d : JVal) : Option JVal :=
  match e with
  | .bus t (some data) _ =>
      if t = "sensors/control/sub" then
        match jgetD data "data" (.jobj []) with
        | .jobj inner =>
            if (igetD inner "sensor_id" (.astr "all")).toJVal = d then
              some (jgetD data "enabled" (.jbool false))
            else none
        | _ => none
      else none
  | _ => none

/-- The value carried by the last acknowledgement for d in a trace. -/
def lastAckValue (evs : List ObsEvent) (d : JVal) : Option JVal :=
  evs.foldl
    (fun acc e => match ackValueFor e d with | some v => some v | none => acc)
    none

/-- Deliver a list of combined readings to the observer (the
sensors/temp_humidity handler applied in order). -/
def run_combined (s : DisplayState) (rs : List JsonObj) : DisplayState :=
  rs.foldl (fun acc r => (SensorDataDisplay.handle_combined_data acc r).1) s

/-! ## Snapshot serialization with object identity
(screen_subscriber.py lines 272-283, _serialize_sensor_data)

The claim about _serialize_sensor_data concerns Python object identity:
self.sensor_data.copy() is a shallow copy, so the nested dict objects
(temperature, humidity, sensor_states, combined) are shared between
the store and the returned snapshot.  To state that, this section
embeds the store with an explicit heap of dict objects addressed by
numeric references; the top-level sensor_data dict holds references to
them, and dict.copy() duplicates only the top level. -/

/-- A heap-allocated Python dict object (keys are arbitrary values, as
in Python; string keys appear wrapped). -/
abbrev PyDict := List (JVal × JVal)

/-- The heap of dict objects reachable from sensor_data. -/
structure SDHeap where
  objs : List (Nat × PyDict)
deriving DecidableEq

/-- Read the dict object at a reference. -/
def hgetObj (h : SDHeap) (r : Nat) : Option PyDict := dget h.objs r

/-- Overwrite the dict object at a reference. -/
def hsetObj (h : SDHeap) (r : Nat) (o : PyDict) : SDHeap := ⟨dset h.objs r o⟩

/-- Python d[k] = v through a reference: an in-place write visible to
every holder of the same reference. -/
def dictWrite (h : SDHeap) (r : Nat) (k v : JVal) : SDHeap :=
  match hgetObj h r with
  | some o => hsetObj h r (dset o k v)
  | none => h

/-- Read one key of the dict object behind a reference. -/
def dictRead (h : SDHeap) (r : Nat) (k : JVal) : Option JVal :=
  match hgetObj h r with
  | some o => dget o k
  | none => none

/-- A datetime-or-string cell, as last_update holds (None at startup,
datetime.now() after a message, an ISO string inside a snapshot). -/
inductive TimeObj where
  | dt (n : Nat)
  | isoStr (s : String)
deriving DecidableEq

/-- datetime.isoformat: defined on datetime objects; on a str the
attribute access raises (None result). -/
def TimeObj.isoformat : TimeObj → Option TimeObj
  | .dt n => some (.isoStr (toString n))
  | .isoStr _ => none

/-- Python truthiness of a time cell. -/
def TimeObj.truthy : TimeObj → Bool
  | .dt _ => true
  | .isoStr s => !s.isEmpty

/-- Python truthiness of a JSON value. -/
def jtruthy : JVal → Bool
  | .jnull => false
  | .jbool b => b
  | .jnum q => decide (q ≠ 0)
  | .jstr s => !s.isEmpty
  | .jobj l => !l.isEmpty

/-- The top-level sensor_data dict: nested dicts by reference, scalar
slots by value. -/
structure SDTop where
  temperature : Nat
  humidity : Nat
  sensor_states : Nat
  combined : Option Nat
  last_update : Option TimeObj
deriving DecidableEq

/-- screen_subscriber.py lines 272-283 (_serialize_sensor_data), with
the heap explicit.  serialized_data = self.sensor_data.copy() shares
every nested reference; rebinding last_update in the copy leaves the
store alone; the two timestamp conversions index the shared inner
dicts (a missing key raises KeyError) and call isoformat on the stored
JSON value when it is truthy, which raises AttributeError before any
assignment — so the heap is never written; on a falsy timestamp the
branch is skipped.  A None result models an escaped exception. -/
def serialize_sensor_data (h : SDHeap) (top : SDTop) :
    Option (SDHeap × SDTop) := do
  let c0 := top
  let c1 ←
    match c0.last_update with
    | some tv =>
        if tv.truthy then
          (tv.isoformat).map (fun v => { c0 with last_update := some v })
        else some c0
    | none => some c0
  let tobj ← hgetObj h c1.temperature
  let tts ← dget tobj (.jstr "timestamp")
  if jtruthy tts then none
  else do
    let hobj ← hgetObj h c1.humidity
    let hts ← dget hobj (.jstr "timestamp")
    if jtruthy hts then none
    else some (h, c1)

/-- A concrete store heap for the serialization theorems: temperature
and humidity inner dicts with null timestamps (object references 0 and
1), and one device state entry (object reference 2). -/
def exampleHeap : SDHeap :=
  ⟨[(0, [(JVal.jstr "value", JVal.jnum 0), (JVal.jstr "unit", JVal.jstr "°C"),
         (JVal.jstr "timestamp", JVal.jnull)]),
    (1, [(JVal.jstr "value", JVal.jnum 0), (JVal.jstr "unit", JVal.jstr "%"),
         (JVal.jstr "timestamp", JVal.jnull)]),
    (2, [(JVal.jstr "s1", JVal.jbool true)])]⟩

/-- The top-level sensor_data dict of the concrete store. -/
def exampleTop : SDTop := ⟨0, 1, 2, none, none⟩

/-! ## Dictionary lemmas -/

theorem dget_dset_self {κ α : Type} [DecidableEq κ]
    (l : List (κ × α)) (k : κ) (v : α) : dget (dset l k v) k = some v := by
  induction l with
  | nil => simp [dget, dset]
  | cons p rest ih =>
      obtain ⟨k', v'⟩ := p
      by_cases h : k' = k
      · simp [dget, dset, h]
      · simp [dget, dset, h, ih]

theorem dget_dset_ne {κ α : Type} [DecidableEq κ]
    (l : List (κ × α)) (k k' : κ) (v : α) (h : k' ≠ k) :
    dget (dset l k v) k' = dget l k' := by
  induction l with
  | nil =>
      have hne : ¬ k = k' := fun hh => h hh.symm
      simp [dget, dset, hne]
  | cons p rest ih =>
      obtain ⟨k0, v0⟩ := p
      by_cases h0 : k0 = k
      · subst h0
        have hne : ¬ k0 = k' := fun hh => h hh.symm
        simp [dget, dset, hne]
      · simp [dget, dset, h0, ih]

theorem dset_idem {κ α : Type} [DecidableEq κ]
    (l : List (κ × α)) (k : κ) (v : α) :
    dset (dset l k v) k v = dset l k v := by
  induction l with
  | nil => simp [dset]
  | cons p rest ih =>
      obtain ⟨k', v'⟩ := p
      by_cases h : k' = k
      · simp [dset, h]
      · simp [dset, h, ih]

/-- A fold that sets the keys of L leaves keys outside L untouched. -/
theorem dget_foldl_dset_not_mem {κ α : Type} [DecidableEq κ]
    (L : List κ) (A : List (κ × α)) (d : κ) (v : α) (hd : d ∉ L) :
    dget (L.foldl (fun acc x => dset acc x v) A) d = dget A d := by
  induction L generalizing A with
  | nil => rfl
  | cons x L ih =>
      have hdx : d ≠ x := fun hh => hd (hh ▸ List.mem_cons_self x L)
      have hdL : d ∉ L := fun hh => hd (List.mem_cons_of_mem x hh)
      calc dget ((x :: L).foldl (fun acc x => dset acc x v) A) d
          = dget (L.foldl (fun acc x => dset acc x v) (dset A x v)) d := rfl
        _ = dget (dset A x v) d := ih (dset A x v) hdL
        _ = dget A d := dget_dset_ne _ _ _ _ hdx

/-- After a fold that sets every key of L to v, a key in L reads v. -/
theorem dget_foldl_dset_mem {κ α : Type} [DecidableEq κ]
    (L : List κ) (A : List (κ × α)) (d : κ) (v : α) (hd : d ∈ L) :
    dget (L.foldl (fun acc x => dset acc x v) A) d = some v := by
  induction L generalizing A with
  | nil => cases hd
  | cons x L ih =>
      by_cases hL : d ∈ L
      · simpa using ih (dset A x v) hL
      · have hdx : d = x := by
          rcases List.mem_cons.mp hd with h | h
          · exact h
          · exact absurd h hL
        subst hdx
        calc dget ((d :: L).foldl (fun acc x => dset acc x v) A) d
            = dget (L.foldl (fun acc x => dset acc x v) (dset A d v)) d := rfl
          _ = dget (dset A d v) d := dget_foldl_dset_not_mem L (dset A d v) d v hL
          _ = some v := dget_dset_self A d v

/-- Appending a fresh key at the end makes it readable. -/
theorem dget_append_self {κ α : Type} [DecidableEq κ]
    (l : List (κ × α)) (k : κ) (v : α) (h : dget l k = none) :
    dget (l ++ [(k, v)]) k = some v := by
  induction l with
  | nil => simp [dget]
  | cons p rest ih =>
      obtain ⟨k', v'⟩ := p
      by_cases hk : k' = k
      · simp [dget, hk] at h
      · simp only [dget, hk, if_false, List.cons_append] at h ⊢
        simp [dget, hk]
        exact ih h

/-! ## Claim theorems -/

/-- Claim C8 (confirmed): a bus message whose payload does not decode
(utf-8 error or json.loads error, modelled as a none decode result) is
dropped by both processes: the observer state and the emitter state
are returned unchanged and the emitter publishes nothing, with no
exception escaping (both handlers are total functions). -/
theorem C8_unparseable_dropped :
    (∀ (s : DisplayState) (topic now : String),
        SensorDataDisplay.on_message s topic none now = s)
    ∧ (∀ (e : EmitterState) (topic : String),
        TemperatureHumiditySensor.on_message e topic none = (e, [])) := by
  constructor
  · intro s topic now
    rfl
  · intro e topic
    unfold TemperatureHumiditySensor.on_message
    split <;> rfl

/-- Claim C5 (confirmed): applying the same acknowledgement payload
twice to the observer store yields the state of applying it once — the
handler sets the enabled entry to the carried value, it never
toggles. -/
theorem C5_ack_idempotent (s : DisplayState) (m : JsonObj) :
    (SensorDataDisplay.handle_control_data
        (SensorDataDisplay.handle_control_data s m).1 m).1
      = (SensorDataDisplay.handle_control_data s m).1 := by
  unfold SensorDataDisplay.handle_control_data
  cases hm : jgetD m "data" (JVal.jobj []) <;> simp [hm, dset_idem]

/-- Claim C9 counterexample: a tick taken while Enabled but
Disconnected still generates a reading (generate_sensor_data gates
only on the enabled flag and updates current_data), refuting that the
emitter generates and publishes a reading exactly when Enabled and
Connected both hold; the tick does publish nothing. -/
theorem C9_counterexample :
    (((TemperatureHumiditySensor.sensor_tick
        ⟨"temp_humidity_sensor_001", false, true, true, []⟩
        25 60 "2026-01-01T00:00:00").2.1).isSome = true)
    ∧ ((⟨"temp_humidity_sensor_001", false, true, true, []⟩ : EmitterState).sensor_enabled = true)
    ∧ ((⟨"temp_humidity_sensor_001", false, true, true, []⟩ : EmitterState).is_connected = false)
    ∧ ((TemperatureHumiditySensor.sensor_tick
        ⟨"temp_humidity_sensor_001", false, true, true, []⟩
        25 60 "2026-01-01T00:00:00").2.2 = []) :=
  ⟨rfl, rfl, rfl, rfl⟩

/-- Claim C9 (amended): on a sampling tick the emitter generates a
reading exactly when Enabled (the reading carries status offline when
disconnected), and publishes it exactly when Enabled and Connected
both hold; a tick taken while Disabled or Disconnected publishes
nothing and raises no error (the tick function is total and the loop
proceeds with the returned state). -/
theorem C9_tick_publish (s : EmitterState) (t h : Rat) (ts : String) :
    (((TemperatureHumiditySensor.sensor_tick s t h ts).2.1).isSome
        ↔ s.sensor_enabled = true)
    ∧ ((TemperatureHumiditySensor.sensor_tick s t h ts).2.2 ≠ []
        ↔ (s.sensor_enabled = true ∧ s.is_connected = true)) := by
  unfold TemperatureHumiditySensor.sensor_tick
    TemperatureHumiditySensor.generate_sensor_data
    TemperatureHumiditySensor.publish_data
  cases he : s.sensor_enabled <;> cases hc : s.is_connected <;> simp [he, hc]

/-- Claim C10 (confirmed): evaluate_conditions returns overall_status
danger exactly when the temperature is strictly greater than 32 (so no
humidity value alone yields danger), and for temperatures in the gaps
18 ≤ t < 20 and 26 < t ≤ 32 it reports no temperature condition. -/
theorem C10_evaluate_conditions (t h : Rat) :
    ((SensorDataDisplay.evaluate_conditions t h).overall_status = "danger" ↔ 32 < t)
    ∧ ((18 ≤ t ∧ t < 20) ∨ (26 < t ∧ t ≤ 32) →
        "🥶 Quá lạnh" ∉ (SensorDataDisplay.evaluate_conditions t h).conditions
        ∧ "🥵 Quá nóng" ∉ (SensorDataDisplay.evaluate_conditions t h).conditions
        ∧ "😊 Nhiệt độ thoải mái" ∉ (SensorDataDisplay.evaluate_conditions t h).conditions) := by
  unfold SensorDataDisplay.evaluate_conditions
  split_ifs <;> simp_all <;> (try constructor) <;> intros <;> linarith

/-- Claim C10 witness: the theorem applied at temperature 33 (danger)
and at temperature 19 with humidity 55 (a gap value: no temperature
condition is reported). -/
theorem C10_evaluate_conditions_witness :
    (SensorDataDisplay.evaluate_conditions 33 55).overall_status = "danger"
    ∧ "😊 Nhiệt độ thoải mái" ∉ (SensorDataDisplay.evaluate_conditions 19 55).conditions :=
  ⟨(C10_evaluate_conditions 33 55).1.mpr (by norm_num),
   ((C10_evaluate_conditions 19 55).2 (Or.inl ⟨by norm_num, by norm_num⟩)).2.2⟩

/-- The emitter's message handler never publishes anything, whatever
the topic and payload. -/
theorem emitter_on_message_pubs (s : EmitterState) (topic : String)
    (dec : Option JsonObj) :
    (TemperatureHumiditySensor.on_message s topic dec).2 = [] := by
  unfold TemperatureHumiditySensor.on_message
  split
  · cases dec with
    | none => rfl
    | some pl =>
        dsimp only
        split_ifs <;> rfl
  · rfl

/-- Claim C1 counterexample: the emitter receives on the control topic
a command whose target device_id equals its own client_id, sets its
Enabled flag, and publishes nothing at all — there is no
acknowledgement envelope on any topic (the sensors/control/sub
envelope is only published by the web toggle handler). -/
theorem C1_counterexample :
    ((⟨"sensor_001", true, true, false, []⟩ : EmitterState).client_id = "sensor_001")
    ∧ jget [("command", JVal.jstr "enable"), ("device_id", .jstr "sensor_001"),
            ("timestamp", .jstr "t0"), ("sender", .jstr "display_001")] "device_id"
        = some (.jstr "sensor_001")
    ∧ ((TemperatureHumiditySensor.on_message
          ⟨"sensor_001", true, true, false, []⟩ "sensors/control"
          (some [("command", JVal.jstr "enable"), ("device_id", .jstr "sensor_001"),
                 ("timestamp", .jstr "t0"), ("sender", .jstr "display_001")])).1.sensor_enabled
        = true)
    ∧ ((TemperatureHumiditySensor.on_message
          ⟨"sensor_001", true, true, false, []⟩ "sensors/control"
          (some [("command", JVal.jstr "enable"), ("device_id", .jstr "sensor_001"),
                 ("timestamp", .jstr "t0"), ("sender", .jstr "display_001")])).2
        = []) := by
  refine ⟨rfl, by decide, by decide, by decide⟩

/-- Claim C1 (amended): on receiving any enable/disable command on the
control topic the emitter sets its local Enabled flag according to the
command alone (the target is never consulted) and publishes no
acknowledgement; the state envelope on the sensors/control/sub topic
(same shape as the toggle status, carrying the current reading) is
published only by the web toggle handler. -/
theorem C1_no_ack_on_command (s : EmitterState) (pl : JsonObj) :
    ((TemperatureHumiditySensor.on_message s "sensors/control" (some pl)).2 = [])
    ∧ ((TemperatureHumiditySensor.on_message s "sensors/control" (some pl)).1.sensor_enabled
        = (if jgetD pl "command" (.jstr "") = JVal.jstr "enable" then true
           else if jgetD pl "command" (.jstr "") = JVal.jstr "disable" then false
           else s.sensor_enabled))
    ∧ ((TemperatureHumiditySensor.handle_toggle_sensor s).2 =
        [⟨topic_control ++ "/sub",
          [("connected", .jbool s.is_connected), ("running", .jbool s.is_running),
           ("enabled", .jbool (!s.sensor_enabled)), ("data", .jobj s.current_data)]⟩]) := by
  refine ⟨emitter_on_message_pubs s "sensors/control" (some pl), ?_, rfl⟩
  unfold TemperatureHumiditySensor.on_message topic_control
  simp only [if_pos rfl]
  split_ifs <;> rfl

/-- Claim C2 counterexample: a disable command whose target device_id
names a different device still turns this emitter's Enabled flag off —
the handler never compares the target with its own client_id. -/
theorem C2_counterexample :
    ((⟨"temp_humidity_sensor_001", true, true, true, []⟩ : EmitterState).client_id
        = "temp_humidity_sensor_001")
    ∧ jget [("command", JVal.jstr "disable"), ("device_id", .jstr "other_sensor"),
            ("timestamp", .jstr "t1"), ("sender", .jstr "display_001")] "device_id"
        = some (.jstr "other_sensor")
    ∧ (JVal.jstr "other_sensor" ≠ JVal.jstr "temp_humidity_sensor_001")
    ∧ (JVal.jstr "other_sensor" ≠ JVal.jstr "all")
    ∧ ((TemperatureHumiditySensor.on_message
          ⟨"temp_humidity_sensor_001", true, true, true, []⟩ "sensors/control"
          (some [("command", JVal.jstr "disable"), ("device_id", .jstr "other_sensor"),
                 ("timestamp", .jstr "t1"), ("sender", .jstr "display_001")])).1.sensor_enabled
        = false) := by
  refine ⟨rfl, by decide, by decide, by decide, by decide⟩

/-- Claim C2 (amended): the emitter changes its Enabled flag for every
enable/disable command received on the control topic, regardless of
the command's target: it is set true on enable and false on disable
even when the target names another device. -/
theorem C2_target_ignored (s : EmitterState) (pl : JsonObj) :
    (jgetD pl "command" (.jstr "") = JVal.jstr "enable" →
      (TemperatureHumiditySensor.on_message s "sensors/control" (some pl)).1.sensor_enabled
        = true)
    ∧ (jgetD pl "command" (.jstr "") = JVal.jstr "disable" →
      (TemperatureHumiditySensor.on_message s "sensors/control" (some pl)).1.sensor_enabled
        = false) := by
  unfold TemperatureHumiditySensor.on_message topic_control
  constructor <;> intro hcmd <;> simp [hcmd]

/-- Claim C2 witness: the amended theorem applied to a disable command
targeting a foreign device_id. -/
theorem C2_target_ignored_witness :
    (TemperatureHumiditySensor.on_message
        ⟨"temp_humidity_sensor_001", true, true, true, []⟩ "sensors/control"
        (some [("command", JVal.jstr "disable"),
               ("device_id", .jstr "other_sensor")])).1.sensor_enabled = false :=
  (C2_target_ignored ⟨"temp_humidity_sensor_001", true, true, true, []⟩
      [("command", JVal.jstr "disable"), ("device_id", .jstr "other_sensor")]).2
    (by decide)

/-- Claim C3 (confirmed): in the observer, a control command with
target all applies exactly to the device list known at the moment the
command is applied — every device in connected_devices has its enabled
entry set to the command value, any other key of the store is left
unchanged — and a device first seen afterwards (a reading from a
sensor_id that is neither in connected_devices nor in sensor_states)
is created with enabled true, unaffected by the earlier command. -/
theorem C3_all_expansion (s : DisplayState) (cmd : JVal) (now : String)
    (d : JVal) (t h sid : JVal) :
    ((cmd = JVal.jstr "enable" ∨ cmd = JVal.jstr "disable") →
      dget ((SensorDataDisplay.handle_control_device s
              [("command", cmd), ("device_id", JVal.jstr "all")] now).1.sensor_states) d
        = (if d ∈ s.connected_devices
           then some (JVal.jbool (decide (cmd = JVal.jstr "enable")))
           else dget s.sensor_states d))
    ∧ (sid ∉ s.connected_devices → dget s.sensor_states sid = none →
        dget ((SensorDataDisplay.handle_combined_data s
                [("temperature", t), ("humidity", h), ("sensor_id", sid)]).1.sensor_states) sid
          = some (JVal.jbool true)) := by
  constructor
  · intro hcmd
    unfold SensorDataDisplay.handle_control_device
    have hc : jgetD [("command", cmd), ("device_id", JVal.jstr "all")]
        "command" (JVal.jstr "") = cmd := by simp [jgetD, dget]
    have hdid : jgetD [("command", cmd), ("device_id", JVal.jstr "all")]
        "device_id" (JVal.jstr "all") = JVal.jstr "all" := by simp [jgetD, dget]
    rcases hcmd with hcmd | hcmd <;> subst hcmd <;> simp only [hc, hdid] <;> simp
    all_goals by_cases hmem : d ∈ s.connected_devices
    all_goals simp [hmem]
    all_goals
      first
        | exact dget_foldl_dset_mem _ _ _ _ hmem
        | exact dget_foldl_dset_not_mem _ _ _ _ hmem
  · intro hnc hns
    unfold SensorDataDisplay.handle_combined_data
    simp [jget, jgetD, dget, hnc, hns, dget_append_self _ _ _ hns]

/-- Claim C3 witness: disable-all with known devices A and B turns A
off, and a first reading from the unseen device C creates C with
enabled true. -/
theorem C3_all_expansion_witness :
    dget ((SensorDataDisplay.handle_control_device
            ⟨"display_001", true, [], [], none, none,
             [(JVal.jstr "A", JVal.jbool true), (JVal.jstr "B", JVal.jbool true)], 0,
             [JVal.jstr "A", JVal.jstr "B"]⟩
            [("command", JVal.jstr "disable"), ("device_id", JVal.jstr "all")]
            "t1").1.sensor_states) (JVal.jstr "A") = some (JVal.jbool false)
    ∧ dget ((SensorDataDisplay.handle_combined_data
            ⟨"display_001", true, [], [], none, none,
             [(JVal.jstr "A", JVal.jbool true), (JVal.jstr "B", JVal.jbool true)], 0,
             [JVal.jstr "A", JVal.jstr "B"]⟩
            [("temperature", JVal.jnum 25), ("humidity", JVal.jnum 60),
             ("sensor_id", JVal.jstr "C")]).1.sensor_states) (JVal.jstr "C")
      = some (JVal.jbool true) := by
  constructor
  · have h1 := (C3_all_expansion
        ⟨"display_001", true, [], [], none, none,
         [(JVal.jstr "A", JVal.jbool true), (JVal.jstr "B", JVal.jbool true)], 0,
         [JVal.jstr "A", JVal.jstr "B"]⟩
        (JVal.jstr "disable") "t1" (JVal.jstr "A")
        JVal.jnull JVal.jnull JVal.jnull).1 (Or.inr rfl)
    simpa using h1
  · exact (C3_all_expansion
        ⟨"display_001", true, [], [], none, none,
         [(JVal.jstr "A", JVal.jbool true), (JVal.jstr "B", JVal.jbool true)], 0,
         [JVal.jstr "A", JVal.jstr "B"]⟩
        JVal.jnull "t1" JVal.jnull (JVal.jnum 25) (JVal.jnum 60)
        (JVal.jstr "C")).2 (by decide) (by decide)

/-- Claim C4 counterexample: an acknowledgement of enable for device A
followed by an optimistic disable edit for A leaves the stored flag
false while the last acknowledgement received carried true — so the
stored flag does not equal the value of the last acknowledgement for
every interleaving of optimistic edits and acknowledgements. -/
theorem C4_counterexample :
    lastAckValue
        [ObsEvent.bus "sensors/control/sub"
           (some [("connected", JVal.jbool true), ("running", JVal.jbool true),
                  ("enabled", JVal.jbool true),
                  ("data", JVal.jobj [("sensor_id", JAtom.astr "A")])]) "t1",
         ObsEvent.web [("command", JVal.jstr "disable"), ("device_id", JVal.jstr "A")] "t2"]
        (JVal.jstr "A") = some (JVal.jbool true)
    ∧ dget ((obs_run ⟨"display_001", true, [], [], none, none, [], 0, []⟩
        [ObsEvent.bus "sensors/control/sub"
           (some [("connected", JVal.jbool true), ("running", JVal.jbool true),
                  ("enabled", JVal.jbool true),
                  ("data", JVal.jobj [("sensor_id", JAtom.astr "A")])]) "t1",
         ObsEvent.web [("command", JVal.jstr "disable"), ("device_id", JVal.jstr "A")] "t2"]).sensor_states)
        (JVal.jstr "A") = some (JVal.jbool false)
    ∧ some (JVal.jbool true) ≠ some (JVal.jbool false) := by
  refine ⟨by decide, by decide, by decide⟩

/-- Claim C4 (amended): an issued command for a specific device sets
the local flag at once (optimistically, before any acknowledgement),
and an acknowledgement for a device sets the flag to the carried value
whatever was stored before — so a later acknowledgement overwrites an
optimistic edit, but a later optimistic edit likewise overwrites an
earlier acknowledgement: after any trace the flag equals the value of
the most recent write, and the last acknowledgement wins only when no
optimistic edit follows it. -/
theorem C4_last_write_wins (s : DisplayState) (evs : List ObsEvent)
    (d v cmd : JVal) (a : JAtom) (now : String) :
    (d ≠ JVal.jstr "all" → (cmd = JVal.jstr "enable" ∨ cmd = JVal.jstr "disable") →
      dget ((obs_run s (evs ++ [ObsEvent.web
              [("command", cmd), ("device_id", d)] now])).sensor_states) d
        = some (JVal.jbool (decide (cmd = JVal.jstr "enable"))))
    ∧ dget ((obs_run s (evs ++ [ObsEvent.bus "sensors/control/sub"
          (some [("enabled", v), ("data", JVal.jobj [("sensor_id", a)])]) now])).sensor_states)
        a.toJVal = some v := by
  constructor
  · intro hall hcmd
    have hc : jgetD [("command", cmd), ("device_id", d)] "command" (JVal.jstr "") = cmd := by
      simp [jgetD, dget]
    have hdid : jgetD [("command", cmd), ("device_id", d)] "device_id" (JVal.jstr "all") = d := by
      simp [jgetD, dget]
    rcases hcmd with hcmd | hcmd <;> subst hcmd <;>
      simp [obs_run, List.foldl_append, obs_step,
        SensorDataDisplay.handle_control_device, hc, hdid, hall, dget_dset_self]
  · have he : jgetD [("enabled", v), ("data", JVal.jobj [("sensor_id", a)])]
        "enabled" (JVal.jbool false) = v := by simp [jgetD, dget]
    have hda : jgetD [("enabled", v), ("data", JVal.jobj [("sensor_id", a)])]
        "data" (JVal.jobj []) = JVal.jobj [("sensor_id", a)] := by simp [jgetD, dget]
    simp [obs_run, List.foldl_append, obs_step, SensorDataDisplay.on_message,
      SensorDataDisplay.handle_control_data, he, hda, igetD, dget, dget_dset_self]

/-- Claim C4 witness: the amended theorem applied twice on a concrete
store — an acknowledgement of enable arriving after an optimistic
disable restores true, and an optimistic disable issued after an
enable acknowledgement yields false. -/
theorem C4_last_write_wins_witness :
    dget ((obs_run ⟨"display_001", true, [], [], none, none, [], 0, []⟩
        [ObsEvent.web [("command", JVal.jstr "disable"), ("device_id", JVal.jstr "A")] "t1",
         ObsEvent.bus "sensors/control/sub"
           (some [("enabled", JVal.jbool true),
                  ("data", JVal.jobj [("sensor_id", JAtom.astr "A")])]) "t2"]).sensor_states)
        (JVal.jstr "A") = some (JVal.jbool true)
    ∧ dget ((obs_run ⟨"display_001", true, [], [], none, none, [], 0, []⟩
        [ObsEvent.bus "sensors/control/sub"
           (some [("enabled", JVal.jbool true),
                  ("data", JVal.jobj [("sensor_id", JAtom.astr "A")])]) "t1",
         ObsEvent.web [("command", JVal.jstr "disable"), ("device_id", JVal.jstr "A")] "t2"]).sensor_states)
        (JVal.jstr "A") = some (JVal.jbool false) := by
  constructor
  · exact (C4_last_write_wins ⟨"display_001", true, [], [], none, none, [], 0, []⟩
      [ObsEvent.web [("command", JVal.jstr "disable"), ("device_id", JVal.jstr "A")] "t1"]
      (JVal.jstr "A") (JVal.jbool true) (JVal.jstr "disable") (JAtom.astr "A") "t2").2
  · exact (C4_last_write_wins ⟨"display_001", true, [], [], none, none, [], 0, []⟩
      [ObsEvent.bus "sensors/control/sub"
         (some [("enabled", JVal.jbool true),
                ("data", JVal.jobj [("sensor_id", JAtom.astr "A")])]) "t1"]
      (JVal.jstr "A") (JVal.jbool true) (JVal.jstr "disable") (JAtom.astr "A") "t2").1
      (by decide) (Or.inr rfl)

/-- Claim C6 counterexample: after a reading from device A and then a
reading from device B, the single combined slot of the store holds the
B reading wholesale — a reading from a different device replaced the A
reading, so the store does not keep a per-device most-recent
reading. -/
theorem C6_counterexample :
    (run_combined ⟨"display_001", true, [], [], none, none, [], 0, []⟩
        [[("temperature", JVal.jnum 25), ("humidity", JVal.jnum 60),
          ("timestamp", JVal.jstr "t1"), ("sensor_id", JVal.jstr "A")],
         [("temperature", JVal.jnum 30), ("humidity", JVal.jnum 50),
          ("timestamp", JVal.jstr "t2"), ("sensor_id", JVal.jstr "B")]]).combined
      = some [("temperature", JVal.jnum 30), ("humidity", JVal.jnum 50),
              ("timestamp", JVal.jstr "t2"), ("sensor_id", JVal.jstr "B")]
    ∧ jget [("temperature", JVal.jnum 30), ("humidity", JVal.jnum 50),
            ("timestamp", JVal.jstr "t2"), ("sensor_id", JVal.jstr "B")] "sensor_id"
        ≠ jget [("temperature", JVal.jnum 25), ("humidity", JVal.jnum 60),
                ("timestamp", JVal.jstr "t1"), ("sensor_id", JVal.jstr "A")] "sensor_id"
    ∧ ([("temperature", JVal.jnum 30), ("humidity", JVal.jnum 50),
        ("timestamp", JVal.jstr "t2"), ("sensor_id", JVal.jstr "B")] : JsonObj)
        ≠ [("temperature", JVal.jnum 25), ("humidity", JVal.jnum 60),
           ("timestamp", JVal.jstr "t1"), ("sensor_id", JVal.jstr "A")] := by
  refine ⟨by decide, by decide, by decide⟩

/-- Claim C6 (amended): the observer keeps one most-recent reading
slot shared by all devices: after any sequence of delivered readings
the combined slot holds exactly the last delivered reading, stored
wholesale with no merging of fields — but a reading from a different
device does replace it; per device, only the enabled flag is
tracked. -/
theorem C6_last_reading_slot (s : DisplayState) (rs : List JsonObj) (r : JsonObj) :
    (run_combined s (rs ++ [r])).combined = some r := by
  have hstep : ∀ (x : DisplayState) (rr : JsonObj),
      (SensorDataDisplay.handle_combined_data x rr).1.combined = some rr := by
    intro x rr
    unfold SensorDataDisplay.handle_combined_data
    cases h1 : jget rr "temperature" <;> cases h2 : jget rr "humidity" <;>
      simp [h1, h2]
    all_goals try (split_ifs <;> rfl)
  simp [run_combined, List.foldl_append, hstep]

/-- Claim C7 counterexample: _serialize_sensor_data performs a shallow
copy — the snapshot it returns holds the very references of the store
(here the returned top-level dict equals the store's, reference for
reference), and writing one entry through the snapshot's sensor_states
reference changes what the store reads at its own sensor_states
reference: mutating the returned value alters the store. -/
theorem C7_counterexample :
    serialize_sensor_data exampleHeap exampleTop = some (exampleHeap, exampleTop)
    ∧ dictRead exampleHeap exampleTop.sensor_states (JVal.jstr "s1")
        = some (JVal.jbool true)
    ∧ dictRead
        (dictWrite exampleHeap exampleTop.sensor_states (JVal.jstr "s1") (JVal.jbool false))
        exampleTop.sensor_states (JVal.jstr "s1")
        = some (JVal.jbool false) := by
  refine ⟨by decide, by decide, by decide⟩

/-- Claim C7 (amended): producing the snapshot leaves the store's
contents unchanged when the nested timestamp fields are unset (the
only state the combined-reading flow produces), but the snapshot is a
shallow copy: it shares every nested dict reference (temperature,
humidity, sensor_states, combined) with the store, so only top-level
rebinding in the snapshot is private, and mutating a nested entry of
the returned value alters the store. -/
theorem C7_shallow_copy (hp : SDHeap) (top : SDTop) (tobj hobj : PyDict)
    (h1 : top.last_update = none)
    (h2 : hgetObj hp top.temperature = some tobj)
    (h3 : dget tobj (JVal.jstr "timestamp") = some JVal.jnull)
    (h4 : hgetObj hp top.humidity = some hobj)
    (h5 : dget hobj (JVal.jstr "timestamp") = some JVal.jnull) :
    serialize_sensor_data hp top = some (hp, top) := by
  unfold serialize_sensor_data
  simp [h1, h2, h3, h4, h5, jtruthy, Option.bind]

/-- Claim C7 witness: the amended theorem applied to a concrete heap
with null timestamps. -/
theorem C7_shallow_copy_witness :
    serialize_sensor_data
        ⟨[(0, [(JVal.jstr "timestamp", JVal.jnull)]),
          (1, [(JVal.jstr "timestamp", JVal.jnull)]), (2, [])]⟩
        ⟨0, 1, 2, none, none⟩
      = some (⟨[(0, [(JVal.jstr "timestamp", JVal.jnull)]),
                (1, [(JVal.jstr "timestamp", JVal.jnull)]), (2, [])]⟩,
              ⟨0, 1, 2, none, none⟩) :=
  C7_shallow_copy _ _
    [(JVal.jstr "timestamp", JVal.jnull)] [(JVal.jstr "timestamp", JVal.jnull)]
    rfl rfl rfl rfl rfl

end MqttProject
